import Mathlib

/-!
Shallow embedding of the InkChatGPT application (src/app.py): a Streamlit
retrieval-augmented question-answering app. The session state, the question
handler, the upload pipeline and the entry point are translated function by
function; external library and service calls (langchain loaders, the Chroma
vector store, the OpenAI chat and embedding clients) are modelled as
unconstrained function parameters, with Except.error standing for a raised
Python exception.
-/

namespace InkChatGPT

/-- Chat roles, from chat_profile.ChatProfileRoleEnum (a repository module not
under src/). Modelled from the spec: messages are role-tagged
(system/user/assistant); only the two roles app.py uses are needed. -/
inductive Role where
  | user
  | assistant
deriving DecidableEq

/-- A chat message as stored in session_state.messages, read back at app.py
line 119 through msg.role and msg.content. Modelled from the spec: the
build_message helpers of chat_profile (not under src/) package a role with
the message text. -/
structure Message where
  role : Role
  content : String
deriving DecidableEq

/-- Modelled from the spec: User(message=m).build_message() of chat_profile. -/
def User.build_message (message : String) : Message :=
  ⟨Role.user, message⟩

/-- Modelled from the spec: Assistant(message=m).build_message() of
chat_profile. -/
def Assistant.build_message (message : String) : Message :=
  ⟨Role.assistant, message⟩

/-- An uploaded file: its name and raw content (file_data.name and
file_data.getvalue() in app.py lines 26-28). -/
structure FileData where
  name : String
  content : String
deriving DecidableEq

/-- Splits a path at its final path separator: returns the directory part
(including the final separator) and the basename. Models the separator
handling inside os.path.splitext for slash-separated paths. -/
def splitBasename : List Char → List Char × List Char
  | [] => ([], [])
  | c :: rest =>
    if rest.contains '/' then
      (c :: (splitBasename rest).1, (splitBasename rest).2)
    else if c = '/' then ([c], rest)
    else ([], c :: rest)

/-- Splits a basename at its last dot: returns the part before the last dot
and the part from the last dot on; when there is no dot the second part is
empty. -/
def splitLastDot : List Char → List Char × List Char
  | [] => ([], [])
  | c :: rest =>
    if rest.contains '.' then
      (c :: (splitLastDot rest).1, (splitLastDot rest).2)
    else if c = '.' then ([], c :: rest)
    else (c :: rest, [])

/-- Model of os.path.splitext (app.py line 30) for slash-separated paths: the
extension begins at the last dot of the basename, except that it is empty
when every character of the basename before that dot is itself a dot, so
leading dots never start an extension. -/
def splitext (p : String) : String × String :=
  let db := splitBasename p.toList
  let re := splitLastDot db.2
  if re.1.any (fun c => c ≠ '.') then
    (String.mk (db.1 ++ re.1), String.mk re.2)
  else (p, "")

/-- The extension os.path.splitext extracts from the saved upload path
os.path.join("./", file_data.name) (app.py lines 26 and 30). -/
def fileExt (name : String) : String :=
  (splitext ("./" ++ name)).2

/-- The three document loaders app.py dispatches to by extension
(lines 33-38). -/
inductive LoaderKind where
  | pyPDFLoader
  | docx2txtLoader
  | textLoader
deriving DecidableEq

/-- The extension dispatch of load_and_process_file (app.py lines 33-41):
exactly ".pdf", ".docx" and ".txt" select a loader; every other extension
reaches the error branch (st.error, return None). -/
def chooseLoader (ext : String) : Option LoaderKind :=
  if ext = ".pdf" then some LoaderKind.pyPDFLoader
  else if ext = ".docx" then some LoaderKind.docx2txtLoader
  else if ext = ".txt" then some LoaderKind.textLoader
  else none

/-- A langchain Document: extracted text plus source metadata. -/
structure Document where
  page_content : String
  metadata : String
deriving DecidableEq

/-- OpenAIEmbeddings client configuration (app.py line 50). -/
structure Embeddings where
  openai_api_key : String
deriving DecidableEq

/-- An abstract handle for a built Chroma vector store (app.py line 51). -/
structure VectorStore where
  id : Nat
deriving DecidableEq

/-- ChatOpenAI client configuration: app.py builds one at lines 60-64 (model
"gpt-3.5-turbo", temperature 0) and another at lines 123-127 (streaming,
default model and temperature). -/
structure ChatOpenAI where
  model : Option String
  temperature : Option Nat
  openai_api_key : String
  streaming : Bool
deriving DecidableEq

/-- The retriever produced by vector_store.as_retriever() (app.py line 65). -/
structure Retriever where
  store : VectorStore
deriving DecidableEq

/-- A ConversationalRetrievalChain (app.py line 66): the llm and retriever it
was built from, plus its crc.run({question, chat_history}) behaviour — the
combined retrieve-and-generate service call, which may raise. -/
structure CRC where
  llm : ChatOpenAI
  retriever : Retriever
  run : String → List (String × String) → Except Unit String

/-- The external library and service calls app.py delegates to, modelled as
unconstrained functions; Except.error stands for a raised exception.
split_documents carries the chunk_size and chunk_overlap arguments given to
RecursiveCharacterTextSplitter; from_llm gives the run behaviour of the
chain ConversationalRetrievalChain.from_llm builds; llm_invoke is the
llm.invoke call of app.py line 128. -/
structure Services where
  loader_load : LoaderKind → FileData → Except Unit (List Document)
  split_documents : Nat → Nat → List Document → List Document
  chroma_from_documents : List Document → Embeddings → Except Unit VectorStore
  from_llm : ChatOpenAI → Retriever → (String → List (String × String) → Except Unit String)
  llm_invoke : ChatOpenAI → List Message → Except Unit Message

/-- The chunk_size argument of RecursiveCharacterTextSplitter (app.py
line 46). -/
def chunk_size : Nat := 1000

/-- The chunk_overlap argument of RecursiveCharacterTextSplitter (app.py
line 47). -/
def chunk_overlap : Nat := 200

/-- load_and_process_file (app.py lines 21-52): saves the upload, dispatches
on the filename extension, loads the document, splits it with chunk_size
1000 and chunk_overlap 200, embeds the chunks and builds a Chroma store.
Except.ok none models the unsupported-format branch (st.error, return None);
Except.error models an exception raised by a library or service call. -/
def load_and_process_file (E : Services) (secrets_key : String) (file_data : FileData) :
    Except Unit (Option VectorStore) :=
  match chooseLoader (fileExt file_data.name) with
  | none => Except.ok none
  | some loader =>
    match E.loader_load loader file_data with
    | Except.error e => Except.error e
    | Except.ok documents =>
      let chunks := E.split_documents chunk_size chunk_overlap documents
      let embeddings : Embeddings := ⟨secrets_key⟩
      match E.chroma_from_documents chunks embeddings with
      | Except.error e => Except.error e
      | Except.ok vector_store => Except.ok (some vector_store)

/-- The chat-model setup of app.py lines 55-66 (source name
initialize_chat_model): builds the ChatOpenAI client, the retriever, and
from them the ConversationalRetrievalChain — all local object construction,
completed in full before the chain is returned. -/
def init_chat_model (E : Services) (secrets_key : String) (vector_store : VectorStore) : CRC :=
  let llm : ChatOpenAI :=
    { model := some "gpt-3.5-turbo", temperature := some 0,
      openai_api_key := secrets_key, streaming := false }
  let retriever : Retriever := ⟨vector_store⟩
  { llm := llm, retriever := retriever, run := E.from_llm llm retriever }

/-- st.session_state: the crc slot (absent until a document is processed),
the "history" list (absent until first initialized by handle_question), and
the "messages" list. -/
structure SessionState where
  crc : Option CRC
  history : Option (List (String × String))
  messages : List Message

/-- The distinct failure sites of handle_question, each a raised Python
exception: reading st.session_state.crc when no chain is stored (app.py
line 104), crc.run raising (line 109), and the display llm.invoke raising
(line 128). -/
inductive QAError where
  | noRetrievalChain
  | chainRunFailure
  | displayLLMFailure
deriving DecidableEq

/-- The error taxonomy of spec section 7 mapped onto the failure sites of
handle_question: the spec (section 8, scenario 7) designates asking with no
document processed — no retrieval chain stored, hence an empty Vector
Index — a RetrievalError. The other two sites are mixed retrieve-and-generate
or display calls the spec does not name per site, so they are not classified
as retrieval errors here. -/
def QAError.isRetrievalError : QAError → Bool
  | QAError.noRetrievalChain => true
  | _ => false

/-- Result of one handle_question call. -/
inductive AskResult where
  | ok
  | err (e : QAError)
deriving DecidableEq

/-- handle_question (app.py lines 100-131), step by step: read
st.session_state.crc (raises when absent); initialize "history" to [] when
absent; call crc.run({question, chat_history: history}); append
(question, response) to "history"; re-display the message list (display
only); call a second, streaming ChatOpenAI with the message list; append its
answer to "messages". -/
def handle_question (E : Services) (secrets_key : String) (st : SessionState)
    (question : String) : SessionState × AskResult :=
  match st.crc with
  | none => (st, AskResult.err QAError.noRetrievalChain)
  | some crc =>
    let history := st.history.getD []
    let st1 : SessionState := { st with history := some history }
    match crc.run question history with
    | Except.error _ => (st1, AskResult.err QAError.chainRunFailure)
    | Except.ok response =>
      let st2 : SessionState := { st1 with history := some (history ++ [(question, response)]) }
      let llm : ChatOpenAI :=
        { model := none, temperature := none, openai_api_key := secrets_key, streaming := true }
      match E.llm_invoke llm st2.messages with
      | Except.error _ => (st2, AskResult.err QAError.displayLLMFailure)
      | Except.ok response2 =>
        ({ st2 with messages := st2.messages ++ [Assistant.build_message response2.content] },
          AskResult.ok)

/-- display_chat_history (app.py lines 134-144): the turns shown — the stored
"history" when present, nothing otherwise. This is the read-all view of the
Conversation Memory. -/
def display_chat_history (st : SessionState) : List (String × String) :=
  match st.history with
  | some h => h
  | none => []

/-- clear_history (app.py lines 147-152): deletes the "history" key when
present; when absent it stays absent. -/
def clear_history (st : SessionState) : SessionState :=
  { st with history := none }

/-- Outcomes of the process-file branch of build_sidebar. skipped: the guard
add_file and uploaded_file and key.startswith("sk-") was not taken;
loadError: load_and_process_file raised; noStore: it returned None
(unsupported format); processed: a chain was built and stored. The
failedMissingCredential constructor follows the spec wording
(MissingCredentialError) and exists only so claims phrased against the spec
taxonomy can be stated; the embedded code never produces it. -/
inductive ProcessOutcome where
  | skipped
  | loadError
  | noStore
  | processed
  | failedMissingCredential
deriving DecidableEq

/-- Python key.startswith("sk-") (app.py line 166), computed over the
character list of the key. -/
def startsWithSk (key : String) : Bool :=
  key.toList.take 3 == ['s', 'k', '-']

/-- build_sidebar (app.py lines 155-175), process-file branch: when the
button was pressed, a file is uploaded and the key starts with "sk-", run
load_and_process_file; only when that returns a store is the chain built and
assigned to st.session_state.crc. -/
def build_sidebar (E : Services) (secrets_key : String) (uploaded_file : Option FileData)
    (add_file : Bool) (st : SessionState) : SessionState × ProcessOutcome :=
  match uploaded_file with
  | none => (st, ProcessOutcome.skipped)
  | some f =>
    if add_file && startsWithSk secrets_key then
      match load_and_process_file E secrets_key f with
      | Except.error _ => (st, ProcessOutcome.loadError)
      | Except.ok none => (st, ProcessOutcome.noStore)
      | Except.ok (some vector_store) =>
        ({ st with crc := some (init_chat_model E secrets_key vector_store) },
          ProcessOutcome.processed)
    else (st, ProcessOutcome.skipped)

/-- The greeting text assigned by main (app.py line 83). -/
def assistant_message : String :=
  "Hello, you can upload a document and chat with me to ask questions related to its content. Start by adding OpenAI API Key in the sidebar."

/-- The unconditional assignment of app.py lines 84-86: session_state
messages is set to the one-element list holding the assistant greeting. -/
def main_reset (st : SessionState) : SessionState :=
  { st with messages := [Assistant.build_message assistant_message] }

/-- Result of one run of main. -/
inductive MainOutcome where
  | noPrompt
  | asked (r : AskResult)
deriving DecidableEq

/-- The chat-input phase of main (app.py lines 90-97): the input widget is
disabled when the key is empty, so a prompt only arrives when a key is
present; the prompt is appended to "messages" as a user message and passed
to handle_question. -/
def main_input_phase (E : Services) (openai_api_key : String) (prompt : Option String)
    (st : SessionState) : SessionState × MainOutcome :=
  match (if openai_api_key ≠ "" then prompt else none) with
  | none => (st, MainOutcome.noPrompt)
  | some p =>
    let st1 : SessionState := { st with messages := st.messages ++ [User.build_message p] }
    let r := handle_question E openai_api_key st1 p
    (r.1, MainOutcome.asked r.2)

/-- main (app.py lines 69-97): the effective key is the secrets value when
non-empty, else the sidebar text input (lines 74-81); the message list is
reset to the greeting (lines 84-86) before the input phase runs. -/
def main (E : Services) (secrets_key sidebar_key : String) (prompt : Option String)
    (st : SessionState) : SessionState × MainOutcome :=
  let openai_api_key := if secrets_key ≠ "" then secrets_key else sidebar_key
  main_input_phase E openai_api_key prompt (main_reset st)

/-- Number of chunk start positions i * (L - O) strictly below len, i.e. the
ceiling of len / (L - O) for O < L. -/
def numChunks (L O len : Nat) : Nat :=
  (len + (L - O) - 1) / (L - O)

/-- Modelled from the spec: the chunking itself is delegated to langchain
RecursiveCharacterTextSplitter, whose code is not part of this repository;
spec section 4.2 describes the chunker as emitting chunks of length at most
L such that chunk i+1 starts O characters before the end of chunk i. Chunk i
is therefore the window of length L starting at offset i * (L - O). -/
def chunkText (L O : Nat) (s : List Char) : List (List Char) :=
  (List.range (numChunks L O s.length)).map (fun i => (s.drop (i * (L - O))).take L)

/-- Benign concrete services for concrete runs: every call succeeds. -/
def ext0 : Services :=
  { loader_load := fun _ _ => Except.ok []
  , split_documents := fun _ _ d => d
  , chroma_from_documents := fun _ _ => Except.ok ⟨0⟩
  , from_llm := fun _ _ => fun _ _ => Except.ok "chain answer"
  , llm_invoke := fun _ _ => Except.ok (Assistant.build_message "display answer") }

/-- Services whose display llm.invoke call raises. -/
def extLLMFail : Services :=
  { ext0 with llm_invoke := fun _ _ => Except.error () }

/-- A concrete stored chain whose run call answers "A". -/
def crcA : CRC :=
  { llm := { model := none, temperature := none, openai_api_key := "sk-test", streaming := false }
  , retriever := ⟨⟨0⟩⟩
  , run := fun _ _ => Except.ok "A" }

/-- A session with a stored chain and an empty (but present) history. -/
def stWithChain : SessionState :=
  { crc := some crcA, history := some [], messages := [] }

/-- A session with no stored chain and a non-trivial history. -/
def stNoChain : SessionState :=
  { crc := none, history := some [("a", "b")], messages := [Assistant.build_message "m"] }

/-- A fresh session: nothing stored yet. -/
def stPlain : SessionState :=
  { crc := none, history := none, messages := [] }

/-- An upload with an unsupported extension. -/
def epubFile : FileData :=
  ⟨"book.epub", "contents"⟩

/-- An upload with a supported extension. -/
def fileTxt : FileData :=
  ⟨"notes.txt", "hello"⟩

/-- C3: asking with no retrieval chain stored (no document processed) fails
immediately — the failure the spec designates RetrievalError — and the
session, in particular the Conversation Memory, is unchanged. -/
theorem handle_question_no_chain (E : Services) (key : String) (st : SessionState)
    (q : String) (h : st.crc = none) :
    handle_question E key st q = (st, AskResult.err QAError.noRetrievalChain) ∧
    QAError.isRetrievalError QAError.noRetrievalChain = true ∧
    display_chat_history (handle_question E key st q).1 = display_chat_history st := by
  unfold handle_question
  rw [h]
  exact ⟨rfl, rfl, rfl⟩

/-- Witness for C3 at a concrete session with no stored chain. -/
theorem handle_question_no_chain_witness :
    handle_question ext0 "sk-test" stNoChain "q"
        = (stNoChain, AskResult.err QAError.noRetrievalChain) ∧
    QAError.isRetrievalError QAError.noRetrievalChain = true ∧
    display_chat_history (handle_question ext0 "sk-test" stNoChain "q").1
        = display_chat_history stNoChain :=
  handle_question_no_chain ext0 "sk-test" stNoChain "q" rfl

/-- C8: clear_history empties the Conversation Memory — the read-all view of
the cleared session is the empty list — and a subsequent handle_question on
the cleared session behaves exactly (same result, same memory and messages
afterwards) as on a session whose stored history is the empty list. -/
theorem clear_history_empties_memory (E : Services) (key : String) (st : SessionState)
    (q : String) :
    display_chat_history (clear_history st) = [] ∧
    (handle_question E key (clear_history st) q).2
      = (handle_question E key { st with history := some [] } q).2 ∧
    display_chat_history (handle_question E key (clear_history st) q).1
      = display_chat_history (handle_question E key { st with history := some [] } q).1 ∧
    (handle_question E key (clear_history st) q).1.messages
      = (handle_question E key { st with history := some [] } q).1.messages := by
  obtain ⟨c, h, m⟩ := st
  refine ⟨rfl, ?_⟩
  cases c with
  | none => exact ⟨rfl, rfl, rfl⟩
  | some crc => exact ⟨rfl, rfl, rfl⟩

/-- C9: build_sidebar never touches the Conversation Memory or the message
list: processing a new document (in any outcome) preserves "history" and
"messages" unchanged. -/
theorem build_sidebar_preserves_history (E : Services) (key : String)
    (uf : Option FileData) (add_file : Bool) (st : SessionState) :
    (build_sidebar E key uf add_file st).1.history = st.history ∧
    (build_sidebar E key uf add_file st).1.messages = st.messages := by
  unfold build_sidebar
  split
  · exact ⟨rfl, rfl⟩
  · split
    · split <;> exact ⟨rfl, rfl⟩
    · exact ⟨rfl, rfl⟩

/-- C10: main reset phase runs before the input phase, it sets the message
list to exactly the one assistant greeting regardless of what was
accumulated, and it leaves the Conversation Memory (and the stored chain)
untouched. -/
theorem main_resets_messages (E : Services) (secrets_key sidebar_key : String)
    (prompt : Option String) (st : SessionState) :
    main E secrets_key sidebar_key prompt st
      = main_input_phase E (if secrets_key ≠ "" then secrets_key else sidebar_key) prompt
          (main_reset st) ∧
    (main_reset st).messages = [Assistant.build_message assistant_message] ∧
    (main_reset st).history = st.history ∧
    (main_reset st).crc = st.crc :=
  ⟨rfl, rfl, rfl, rfl⟩

/-- C6: after build_sidebar the stored chain is either the previous one or a
chain fully built by init_chat_model from a vector store fully built by
load_and_process_file; in particular every build-phase failure leaves the
previously stored chain unchanged, and nothing partially built is ever
assigned. -/
theorem build_sidebar_replace_by_swap (E : Services) (key : String)
    (uf : Option FileData) (add_file : Bool) (st : SessionState) :
    (build_sidebar E key uf add_file st).1.crc = st.crc ∨
    (∃ f vs, uf = some f ∧ load_and_process_file E key f = Except.ok (some vs) ∧
      (build_sidebar E key uf add_file st).1.crc = some (init_chat_model E key vs)) := by
  unfold build_sidebar
  split
  · exact Or.inl rfl
  · rename_i f
    split
    · split
      · exact Or.inl rfl
      · exact Or.inl rfl
      · rename_i vs hload
        exact Or.inr ⟨f, vs, rfl, hload, rfl⟩
    · exact Or.inl rfl

/-- C1 counterexample: with the chain call succeeding and the later display
llm.invoke call failing, handle_question fails, yet the Conversation Memory
has grown by one turn — the turn was appended before the failing call. -/
theorem handle_question_display_failure_grows_history :
    (handle_question extLLMFail "sk-test" stWithChain "q").2
        = AskResult.err QAError.displayLLMFailure ∧
    (display_chat_history (handle_question extLLMFail "sk-test" stWithChain "q").1).length
        = (display_chat_history stWithChain).length + 1 :=
  ⟨rfl, rfl⟩

/-- C1 (amended): on success the Conversation Memory grows by exactly one
turn, and a failure of the chain call (or a missing chain) leaves its length
unchanged; but a failure of the later display llm.invoke call also leaves
the memory grown by one, because the turn is appended before that call. -/
theorem handle_question_history_length (E : Services) (key : String)
    (st : SessionState) (q : String) :
    (display_chat_history (handle_question E key st q).1).length
      = (display_chat_history st).length
        + (match (handle_question E key st q).2 with
           | AskResult.ok => 1
           | AskResult.err QAError.displayLLMFailure => 1
           | AskResult.err _ => 0) := by
  obtain ⟨c, h, m⟩ := st
  cases c with
  | none => rfl
  | some crc =>
    unfold handle_question
    dsimp only
    cases crc.run q (h.getD []) with
    | error e => cases h <;> simp [display_chat_history]
    | ok r =>
      cases E.llm_invoke
          { model := none, temperature := none, openai_api_key := key, streaming := true } m with
      | error e => cases h <;> simp [display_chat_history]
      | ok r2 => cases h <;> simp [display_chat_history]

/-- C2 counterexample: a successful handle_question records the chain answer
"A" as the turn, while the message appended and shown comes from the second
llm.invoke call and differs from it. -/
theorem handle_question_recorded_differs_displayed :
    (handle_question ext0 "sk-test" stWithChain "q").2 = AskResult.ok ∧
    (display_chat_history (handle_question ext0 "sk-test" stWithChain "q").1).getLast?
        = some ("q", "A") ∧
    Option.map Message.content
        (handle_question ext0 "sk-test" stWithChain "q").1.messages.getLast?
        = some "display answer" ∧
    ("A" : String) ≠ "display answer" := by
  refine ⟨rfl, rfl, rfl, ?_⟩
  decide

/-- C2 (amended): on a successful handle_question the recorded turn holds the
chain response, while the message appended to the displayed message list
holds the content of the separate streaming llm.invoke call over the message
list — two independent values that need not coincide. -/
theorem handle_question_recorded_and_displayed_answers
    (E : Services) (key : String) (st : SessionState) (q : String)
    (crc : CRC) (a : String) (m2 : Message)
    (hc : st.crc = some crc)
    (hr : crc.run q (st.history.getD []) = Except.ok a)
    (hl : E.llm_invoke
        { model := none, temperature := none, openai_api_key := key, streaming := true }
        st.messages = Except.ok m2) :
    handle_question E key st q
      = ({ st with
            history := some (st.history.getD [] ++ [(q, a)]),
            messages := st.messages ++ [Assistant.build_message m2.content] },
          AskResult.ok) := by
  unfold handle_question
  rw [hc]
  dsimp only
  rw [hr]
  dsimp only
  rw [hl]

/-- Witness for C2 (amended) at a concrete session and concrete services. -/
theorem handle_question_recorded_and_displayed_answers_witness :
    handle_question ext0 "sk-test" stWithChain "q"
      = ({ stWithChain with
            history := some [("q", "A")],
            messages := [Assistant.build_message "display answer"] },
          AskResult.ok) :=
  handle_question_recorded_and_displayed_answers ext0 "sk-test" stWithChain "q"
    crcA "A" (Assistant.build_message "display answer") rfl rfl rfl

/-- C7 counterexample: with the process button pressed, a file uploaded and
the key absent (empty), the process operation is silently skipped — it does
not fail with the spec MissingCredentialError. -/
theorem missing_key_no_credential_error :
    (build_sidebar ext0 "" (some fileTxt) true stPlain).2 = ProcessOutcome.skipped ∧
    ProcessOutcome.skipped ≠ ProcessOutcome.failedMissingCredential := by
  refine ⟨?_, by decide⟩
  have h : startsWithSk "" = false := rfl
  unfold build_sidebar
  rw [h, Bool.and_false]
  rfl

/-- C7 (amended): when the API key is absent both service operations are
simply not performed — main never reaches handle_question because the chat
input is disabled, and build_sidebar skips the build because the key guard
fails — and neither surfaces any error value. -/
theorem missing_key_operations_not_performed (E : Services) (prompt : Option String)
    (uf : Option FileData) (add_file : Bool) (st st2 : SessionState) :
    main E "" "" prompt st = (main_reset st, MainOutcome.noPrompt) ∧
    build_sidebar E "" uf add_file st2 = (st2, ProcessOutcome.skipped) := by
  constructor
  · rfl
  · have h : startsWithSk "" = false := rfl
    unfold build_sidebar
    rw [h, Bool.and_false]
    cases uf <;> rfl

/-- C4: the loader choice of load_and_process_file is a function of the
filename extension alone, and every extension outside .pdf/.docx/.txt
reaches the unsupported-format branch: no vector store is produced. -/
theorem load_and_process_file_unsupported_extension (E : Services) (key : String)
    (f : FileData) (h : fileExt f.name ∉ [".pdf", ".docx", ".txt"]) :
    load_and_process_file E key f = Except.ok none ∧
    ∀ f2 : FileData, fileExt f2.name = fileExt f.name →
      chooseLoader (fileExt f2.name) = chooseLoader (fileExt f.name) := by
  have hnone : chooseLoader (fileExt f.name) = none := by
    simp only [List.mem_cons, List.not_mem_nil, or_false, not_or] at h
    obtain ⟨h1, h2, h3⟩ := h
    unfold chooseLoader
    rw [if_neg h1, if_neg h2, if_neg h3]
  refine ⟨?_, fun f2 h2 => by rw [h2]⟩
  unfold load_and_process_file
  rw [hnone]

/-- Witness for C4 at a concrete upload with extension ".epub". -/
theorem load_and_process_file_unsupported_extension_witness :
    load_and_process_file ext0 "sk-test" epubFile = Except.ok none ∧
    ∀ f2 : FileData, fileExt f2.name = fileExt epubFile.name →
      chooseLoader (fileExt f2.name) = chooseLoader (fileExt epubFile.name) :=
  load_and_process_file_unsupported_extension ext0 "sk-test" epubFile (by decide)

/-- Helper: the i-th chunk of chunkText, read through getD, is the window of
length L at offset i * (L - O) while i is in range, and [] beyond. -/
theorem chunkText_getD (L O : Nat) (s : List Char) (i : Nat) :
    (chunkText L O s).getD i []
      = if i < numChunks L O s.length then (s.drop (i * (L - O))).take L else [] := by
  unfold chunkText
  rw [List.getD_eq_getElem?_getD, List.getElem?_map]
  by_cases h : i < numChunks L O s.length
  · rw [List.getElem?_range h, if_pos h]
    rfl
  · rw [if_neg h, List.getElem?_eq_none]
    · rfl
    · simpa using Nat.le_of_not_lt h

/-- C5: the splitter is configured with chunk_size 1000 and chunk_overlap
200; every produced chunk has length at most chunk_size; and every
full-length chunk (i.e. away from the document end) shares its final
chunk_overlap characters with the head of the following chunk. -/
theorem chunker_configuration_and_bounds :
    chunk_size = 1000 ∧ chunk_overlap = 200 ∧
    (∀ (s c : List Char), c ∈ chunkText chunk_size chunk_overlap s →
      c.length ≤ chunk_size) ∧
    (∀ (s : List Char) (i : Nat),
      ((chunkText chunk_size chunk_overlap s).getD i []).length = chunk_size →
      ((chunkText chunk_size chunk_overlap s).getD i []).drop (chunk_size - chunk_overlap)
        = ((chunkText chunk_size chunk_overlap s).getD (i + 1) []).take chunk_overlap) := by
  refine ⟨rfl, rfl, ?_, ?_⟩
  · intro s c hc
    simp only [chunkText, List.mem_map, List.mem_range] at hc
    obtain ⟨i, -, rfl⟩ := hc
    rw [List.length_take]
    exact Nat.min_le_left _ _
  · intro s i hlen
    rw [chunkText_getD] at hlen
    by_cases hin : i < numChunks chunk_size chunk_overlap s.length
    · rw [if_pos hin] at hlen
      rw [List.length_take, List.length_drop] at hlen
      have hs : i * 800 + 1000 ≤ s.length := by
        simp only [chunk_size, chunk_overlap] at hlen
        omega
      have hin2 : i + 1 < numChunks chunk_size chunk_overlap s.length := by
        simp only [numChunks, chunk_size, chunk_overlap]
        omega
      rw [chunkText_getD, chunkText_getD, if_pos hin, if_pos hin2]
      rw [List.drop_take, List.drop_drop, List.take_take]
      have e1 : i * (chunk_size - chunk_overlap) + (chunk_size - chunk_overlap)
          = (i + 1) * (chunk_size - chunk_overlap) := by ring
      rw [e1]
      norm_num [chunk_size, chunk_overlap]
    · rw [if_neg hin] at hlen
      simp [chunk_size] at hlen

/-- Witness for C5: a 1800-character document yields a first chunk of full
length 1000 whose final 200 characters are the head of the second chunk. -/
theorem chunker_configuration_and_bounds_witness :
    (List.replicate 1000 'a') ∈ chunkText chunk_size chunk_overlap (List.replicate 1800 'a') ∧
    (List.replicate 1000 'a').length ≤ chunk_size ∧
    ((chunkText chunk_size chunk_overlap (List.replicate 1800 'a')).getD 0 []).drop
        (chunk_size - chunk_overlap)
      = ((chunkText chunk_size chunk_overlap (List.replicate 1800 'a')).getD 1 []).take
          chunk_overlap := by
  have hmem : (List.replicate 1000 'a')
      ∈ chunkText chunk_size chunk_overlap (List.replicate 1800 'a') := by
    simp only [chunkText, List.mem_map, List.mem_range]
    refine ⟨0, ?_, ?_⟩
    · norm_num [numChunks, chunk_size, chunk_overlap, List.length_replicate]
    · norm_num [chunk_size, chunk_overlap, List.take_replicate]
  have hlen : ((chunkText chunk_size chunk_overlap (List.replicate 1800 'a')).getD 0 []).length
      = chunk_size := by
    rw [chunkText_getD, if_pos]
    · norm_num [chunk_size, chunk_overlap, List.take_replicate, List.length_replicate]
    · norm_num [numChunks, chunk_size, chunk_overlap, List.length_replicate]
  exact ⟨hmem, chunker_configuration_and_bounds.2.2.1 _ _ hmem,
    chunker_configuration_and_bounds.2.2.2 _ 0 hlen⟩

end InkChatGPT
